import Mathlib

/-!
Verification of the JSON data-contract core of the metric_stream repository:
canonical KPI update records, the multi-KPI aggregate normalizer, and the
response dispatch layer (src/schemas/core.py, src/schemas/responses.py).

Python dynamic values are embedded as the inductive `Json`; Python dicts are
ordered association lists with first-occurrence lookup and in-place update
semantics.  Python numbers are modelled as rationals (no arithmetic is ever
performed on them by this code, only copying, defaulting and comparison).
-/

/-- A Python/JSON value as handled by the schema code. -/
inductive Json where
  | null : Json
  | bool (b : Bool) : Json
  | num (q : Rat) : Json
  | str (s : String) : Json
  | arr (xs : List Json) : Json
  | obj (kvs : List (String × Json)) : Json

mutual

/-- Structural equality test on `Json` values. -/
def Json.beq : Json → Json → Bool
  | .null, .null => true
  | .bool a, .bool b => decide (a = b)
  | .num a, .num b => decide (a = b)
  | .str a, .str b => decide (a = b)
  | .arr a, .arr b => Json.beqList a b
  | .obj a, .obj b => Json.beqObj a b
  | _, _ => false

def Json.beqList : List Json → List Json → Bool
  | [], [] => true
  | x :: xs, y :: ys => Json.beq x y && Json.beqList xs ys
  | _, _ => false

def Json.beqObj : List (String × Json) → List (String × Json) → Bool
  | [], [] => true
  | (k, v) :: xs, (l, w) :: ys => decide (k = l) && Json.beq v w && Json.beqObj xs ys
  | _, _ => false

end

mutual

theorem Json.eq_of_beq : ∀ (a b : Json), Json.beq a b = true → a = b
  | .null, .null, _ => rfl
  | .bool _, .bool _, h => by simpa [Json.beq] using h
  | .num _, .num _, h => by simpa [Json.beq] using h
  | .str _, .str _, h => by simpa [Json.beq] using h
  | .arr a, .arr b, h => congrArg Json.arr (Json.eqList_of_beqList a b h)
  | .obj a, .obj b, h => congrArg Json.obj (Json.eqObj_of_beqObj a b h)

theorem Json.eqList_of_beqList : ∀ (a b : List Json), Json.beqList a b = true → a = b
  | [], [], _ => rfl
  | x :: xs, y :: ys, h => by
      have h2 := h
      simp only [Json.beqList, Bool.and_eq_true] at h2
      exact congrArg₂ List.cons (Json.eq_of_beq x y h2.1) (Json.eqList_of_beqList xs ys h2.2)

theorem Json.eqObj_of_beqObj :
    ∀ (a b : List (String × Json)), Json.beqObj a b = true → a = b
  | [], [], _ => rfl
  | (k, v) :: xs, (l, w) :: ys, h => by
      have h2 := h
      simp only [Json.beqObj, Bool.and_eq_true, decide_eq_true_eq] at h2
      have hv := Json.eq_of_beq v w h2.1.2
      have hr := Json.eqObj_of_beqObj xs ys h2.2
      simp [h2.1.1, hv, hr]

end

mutual

theorem Json.beq_refl : ∀ (a : Json), Json.beq a a = true
  | .null => rfl
  | .bool _ => by simp [Json.beq]
  | .num _ => by simp [Json.beq]
  | .str _ => by simp [Json.beq]
  | .arr a => Json.beqList_refl a
  | .obj a => Json.beqObj_refl a

theorem Json.beqList_refl : ∀ (a : List Json), Json.beqList a a = true
  | [] => rfl
  | x :: xs => by
      simp only [Json.beqList, Bool.and_eq_true]
      exact ⟨Json.beq_refl x, Json.beqList_refl xs⟩

theorem Json.beqObj_refl : ∀ (a : List (String × Json)), Json.beqObj a a = true
  | [] => rfl
  | (k, v) :: xs => by
      simp [Json.beqObj, Json.beq_refl v, Json.beqObj_refl xs]

end

instance : DecidableEq Json := fun a b =>
  if h : Json.beq a b = true then .isTrue (Json.eq_of_beq a b h)
  else .isFalse (fun he => h (he ▸ Json.beq_refl a))

/-- An ordered Python dict with string keys. -/
abbrev JDict := List (String × Json)

/-- Python truthiness (`bool(v)`) of a value. -/
def pyTruthy : Json → Bool
  | .null => false
  | .bool b => b
  | .num q => q != 0
  | .str s => s != ""
  | .arr xs => !xs.isEmpty
  | .obj kvs => !kvs.isEmpty

/-- Python `k in d` membership test on a dict. -/
def containsKey (d : JDict) (k : String) : Bool :=
  d.any (fun p => decide (p.1 = k))

/-- Python `d[k] = v`: replace in place if the key exists, else append. -/
def setKey (d : JDict) (k : String) (v : Json) : JDict :=
  if containsKey d k then d.map (fun p => if p.1 = k then (k, v) else p)
  else d ++ [(k, v)]

/-- Python `d.update(af)`: set every key of `af` in order (overwriting). -/
def pyUpdate (d : JDict) (af : JDict) : JDict :=
  af.foldl (fun acc p => setKey acc p.1 p.2) d


/-- Python `d.get(k)`: the value at `k`, or `None` when the key is absent. -/
def jget (d : JDict) (k : String) : Json :=
  (List.lookup k d).getD Json.null

mutual

/-- Model of Python `str(v)`.  The exact rendering of numbers and nested
quoting is abstracted (no claim depends on it); container structure is kept. -/
def pyStr : Json → String
  | .null => "None"
  | .bool true => "True"
  | .bool false => "False"
  | .num q => toString q
  | .str s => s
  | .arr xs => "[" ++ pyStrList xs ++ "]"
  | .obj kvs => "\x7b" ++ pyStrObj kvs ++ "\x7d"

def pyStrList : List Json → String
  | [] => ""
  | [x] => pyStr x
  | x :: xs => pyStr x ++ ", " ++ pyStrList xs

def pyStrObj : List (String × Json) → String
  | [] => ""
  | [(k, v)] => k ++ ": " ++ pyStr v
  | (k, v) :: kvs => k ++ ": " ++ pyStr v ++ ", " ++ pyStrObj kvs

end

/-- The exceptions the schema code can raise, distinguished by kind. -/
inductive PyErr where
  /-- `ValueError` from the required-field loop of `KPIDataUpdate.from_dict`. -/
  | missingField (f : String) : PyErr
  /-- `ValueError` from the truthiness checks of `KPIErrorUpdate.from_dict`. -/
  | requiredField (f : String) : PyErr
  /-- A raw `KeyError` from unchecked dict indexing `d[k]`. -/
  | keyError (k : String) : PyErr
  /-- `TypeError`/`AttributeError` from indexing or `.get` on a non-mapping. -/
  | notAMapping : PyErr
  /-- `ValueError` from `parse_multi_kpi_response` on an unknown `kpiType`. -/
  | unknownMultiType (v : Json) : PyErr
  /-- `ValueError` from `parse_kpi_response` when no branch matches. -/
  | indeterminateShape : PyErr
deriving DecidableEq

/-- The diagnostic message carried by each exception (quotes elided). -/
def PyErr.message : PyErr → String
  | .missingField f => "Required field " ++ f ++ " missing from KPI data"
  | .requiredField f => f ++ " is required in error response"
  | .keyError k => "KeyError: " ++ k
  | .notAMapping => "TypeError: value is not a mapping"
  | .unknownMultiType v => "Unknown multi-KPI type: " ++ pyStr v
  | .indeterminateShape => "Cannot determine KPI response type from data structure"

deriving instance DecidableEq for Except

/-- Python `d[k]`: the value at `k`, or a `KeyError` when absent. -/
def jindex (d : JDict) (k : String) : Except PyErr Json :=
  match List.lookup k d with
  | some v => .ok v
  | none => .error (.keyError k)

/-- Chart information record (`ChartInfo` dataclass). -/
structure ChartInfo where
  url : Json
  chart_type : Json
  time_range : Json
deriving DecidableEq

/-- `ChartInfo.to_dict`. -/
def ChartInfo.to_dict (c : ChartInfo) : JDict :=
  [("url", c.url), ("type", c.chart_type), ("timeRange", c.time_range)]

/-- The chart-parsing block shared verbatim by `KPIDataUpdate.from_dict` and
`parse_individual_kpi_response`: when `chart` is present and truthy it must
be a mapping with a `url` key; `type` and `timeRange` default to
`"unknown"` when absent. -/
def parseChart (d : JDict) : Except PyErr (Option ChartInfo) :=
  match List.lookup "chart" d with
  | some cv =>
      if pyTruthy cv then
        match cv with
        | .obj ckvs =>
            match List.lookup "url" ckvs with
            | some u =>
                .ok (some ⟨u, (List.lookup "type" ckvs).getD (.str "unknown"),
                  (List.lookup "timeRange" ckvs).getD (.str "unknown")⟩)
            | none => .error (.keyError "url")
        | _ => .error .notAMapping
      else .ok none
  | none => .ok none

/-- `KPIDataUpdate` dataclass.  Fields that Python leaves dynamically typed
are `Json`; a Python `None` is `Json.null`. -/
structure KPIDataUpdate where
  trace_id : Json
  kpi_id : Json
  timestamp : Json
  kpi_type : Json
  data : Json
  kpi_ids : Json := Json.null
  chart : Option ChartInfo := none
  metadata : Json := Json.null
deriving DecidableEq

/-- `KPIDataUpdate.to_dict`: the five required keys, then each optional key
appended when its field is truthy (a `ChartInfo` instance is always truthy,
so `chart` is appended exactly when not `None`). -/
def KPIDataUpdate.to_dict (u : KPIDataUpdate) : JDict :=
  [("traceId", u.trace_id), ("kpiId", u.kpi_id), ("timestamp", u.timestamp),
    ("kpiType", u.kpi_type), ("data", u.data)]
  ++ (if pyTruthy u.kpi_ids then [("kpiIds", u.kpi_ids)] else [])
  ++ (match u.chart with
      | some c => [("chart", Json.obj c.to_dict)]
      | none => [])
  ++ (if pyTruthy u.metadata then [("metadata", u.metadata)] else [])

/-- The required-key list checked by `KPIDataUpdate.from_dict`, in source
order. -/
def required_fields : List String :=
  ["traceId", "kpiId", "timestamp", "kpiType", "data"]

/-- `KPIDataUpdate.from_dict`: raise naming the first absent required key,
then parse the optional chart block, then build the record. -/
def KPIDataUpdate.from_dict (d : JDict) : Except PyErr KPIDataUpdate :=
  match required_fields.find? (fun f => !containsKey d f) with
  | some f => .error (.missingField f)
  | none =>
      match parseChart d with
      | .error e => .error e
      | .ok chart =>
          .ok { trace_id := jget d "traceId", kpi_id := jget d "kpiId",
                timestamp := jget d "timestamp", kpi_type := jget d "kpiType",
                data := jget d "data", kpi_ids := jget d "kpiIds",
                chart := chart, metadata := jget d "metadata" }

/-- `KPIErrorUpdate` dataclass.  `additional_fields` is `None` or a dict. -/
structure KPIErrorUpdate where
  trace_id : Json
  error : Json
  timestamp : Json := Json.null
  kpi_id : Json := Json.null
  kpi_ids : Json := Json.null
  retry_count : Json := Json.null
  component : Json := Json.null
  workflow_id : Json := Json.null
  execution_id : Json := Json.null
  additional_fields : Option JDict := none
deriving DecidableEq

/-- The `result` dict of `KPIErrorUpdate.to_dict` before the
`additional_fields` update: required keys, then truthiness-guarded optional
keys (`retryCount` alone is guarded by `is not None`). -/
def KPIErrorUpdate.base_dict (e : KPIErrorUpdate) : JDict :=
  [("traceId", e.trace_id), ("error", e.error)]
  ++ (if pyTruthy e.timestamp then [("timestamp", e.timestamp)] else [])
  ++ (if pyTruthy e.kpi_id then [("kpiId", e.kpi_id)] else [])
  ++ (if pyTruthy e.kpi_ids then [("kpiIds", e.kpi_ids)] else [])
  ++ (if e.retry_count ≠ Json.null then [("retryCount", e.retry_count)] else [])
  ++ (if pyTruthy e.component then [("component", e.component)] else [])
  ++ (if pyTruthy e.workflow_id then [("workflowId", e.workflow_id)] else [])
  ++ (if pyTruthy e.execution_id then [("executionId", e.execution_id)] else [])

/-- `KPIErrorUpdate.to_dict`: the base dict, then `result.update` with
`additional_fields` when that dict is truthy (non-`None` and non-empty). -/
def KPIErrorUpdate.to_dict (e : KPIErrorUpdate) : JDict :=
  match e.additional_fields with
  | some af => if af.isEmpty then e.base_dict else pyUpdate e.base_dict af
  | none => e.base_dict

/-- The known top-level keys of the error shape, in source order. -/
def known_fields : List String :=
  ["traceId", "error", "timestamp", "kpiId", "kpiIds",
    "retryCount", "component", "workflowId", "executionId"]

/-- `KPIErrorUpdate.from_dict`: `traceId` and `error` must be truthy
(`error` defaults to the empty dict before the check); every key outside
`known_fields` is collected in order into `additional_fields`, which is
`None` when nothing remains. -/
def KPIErrorUpdate.from_dict (d : JDict) : Except PyErr KPIErrorUpdate :=
  let trace_id := jget d "traceId"
  if !pyTruthy trace_id then .error (.requiredField "traceId")
  else
    let error := (List.lookup "error" d).getD (Json.obj [])
    if !pyTruthy error then .error (.requiredField "error")
    else
      let additional := d.filter (fun p => !known_fields.contains p.1)
      .ok { trace_id := trace_id, error := error,
            timestamp := jget d "timestamp", kpi_id := jget d "kpiId",
            kpi_ids := jget d "kpiIds", retry_count := jget d "retryCount",
            component := jget d "component", workflow_id := jget d "workflowId",
            execution_id := jget d "executionId",
            additional_fields := if additional.isEmpty then none else some additional }

/-- `KPIErrorUpdate.get_error_message`: on a mapping, the chained Python
`or` yields the first truthy of the `message`, `error`, `description`
entries, falling back to `str(self.error)`; on a non-mapping,
`str(self.error)`. -/
def KPIErrorUpdate.get_error_message (e : KPIErrorUpdate) : Json :=
  match e.error with
  | .obj kvs =>
      let m := (List.lookup "message" kvs).getD Json.null
      if pyTruthy m then m
      else
        let er := (List.lookup "error" kvs).getD Json.null
        if pyTruthy er then er
        else
          let de := (List.lookup "description" kvs).getD Json.null
          if pyTruthy de then de
          else .str (pyStr e.error)
  | _ => .str (pyStr e.error)

/-- `CBBIData` dataclass: the four CBBI numeric fields.  The values are
`Json` because `parse_multi_kpi_response` stores whatever the raw payload
holds (floats in well-typed payloads). -/
structure CBBIData where
  cbbi_btc_price_usd : Json
  cbbi_rhodl : Json
  cbbi_mvrv : Json
  cbbi_confidence : Json
deriving DecidableEq

/-- `CBBIData.to_dict`: the kebab-case external key mapping. -/
def CBBIData.to_dict (d : CBBIData) : JDict :=
  [("cbbi-btc-price-usd", d.cbbi_btc_price_usd), ("cbbi-rhodl", d.cbbi_rhodl),
    ("cbbi-mvrv", d.cbbi_mvrv), ("cbbi-confidence", d.cbbi_confidence)]

/-- `CMCData` dataclass: the four CoinMarketCap numeric fields. -/
structure CMCData where
  cmc_btc_dominance : Json
  cmc_eth_dominance : Json
  cmc_totalmarketcap_usd : Json
  cmc_stablecoinmarketcap_usd : Json
deriving DecidableEq

/-- `CMCData.to_dict`: the kebab-case external key mapping. -/
def CMCData.to_dict (d : CMCData) : JDict :=
  [("cmc-btc-dominance", d.cmc_btc_dominance), ("cmc-eth-dominance", d.cmc_eth_dominance),
    ("cmc-totalmarketcap-usd", d.cmc_totalmarketcap_usd),
    ("cmc-stablecoinmarketcap-usd", d.cmc_stablecoinmarketcap_usd)]

/-- `CBBIMultiKPIResponse` dataclass. -/
structure CBBIMultiKPIResponse where
  trace_id : Json
  timestamp : Json
  kpi_type : Json := Json.str "cbbi-multi"
  kpi_ids : Json := Json.null
  data : Option CBBIData := none
  metadata : Json := Json.null
deriving DecidableEq

/-- `CMCMultiKPIResponse` dataclass. -/
structure CMCMultiKPIResponse where
  trace_id : Json
  timestamp : Json
  kpi_type : Json := Json.str "cmc-multi"
  kpi_ids : Json := Json.null
  data : Option CMCData := none
  metadata : Json := Json.null
deriving DecidableEq

/-- The loop body shared by both `to_kpi_data_updates` methods: for one id
taken from `kpi_ids`, look it up in the serialized aggregate dict
(`data_dict.get(kpi_id)` finds nothing for a non-string id) and, when the
result `is not None`, build the canonical record.  Python would raise on an
unhashable id (a list or dict); such an id is modelled as a skip, and no
claim exercises it. -/
def normalizeOne (trace_id timestamp kpi_type kpi_ids metadata : Json)
    (data_dict : JDict) (kid : Json) : Option KPIDataUpdate :=
  match kid with
  | .str s =>
      match List.lookup s data_dict with
      | some v =>
          if v = Json.null then none
          else some { trace_id := trace_id, kpi_id := .str s, timestamp := timestamp,
                      kpi_type := kpi_type, data := .obj [("value", v)],
                      kpi_ids := kpi_ids, metadata := metadata }
      | none => none
  | _ => none

/-- `CBBIMultiKPIResponse.to_kpi_data_updates`: return `[]` when `data` or
`kpi_ids` is falsy, else iterate `kpi_ids` in order, skipping ids whose
`data_dict.get` yields `None`.  A truthy non-list `kpi_ids` (which Python
would iterate characterwise or reject) is modelled as producing `[]`; only
`None` or a list can occupy the field in well-typed records. -/
def CBBIMultiKPIResponse.to_kpi_data_updates (r : CBBIMultiKPIResponse) :
    List KPIDataUpdate :=
  match r.data with
  | none => []
  | some d =>
      match r.kpi_ids with
      | .arr ids =>
          ids.filterMap
            (normalizeOne r.trace_id r.timestamp r.kpi_type r.kpi_ids r.metadata d.to_dict)
      | _ => []

/-- `CMCMultiKPIResponse.to_kpi_data_updates`: identical algorithm over the
CMC aggregate. -/
def CMCMultiKPIResponse.to_kpi_data_updates (r : CMCMultiKPIResponse) :
    List KPIDataUpdate :=
  match r.data with
  | none => []
  | some d =>
      match r.kpi_ids with
      | .arr ids =>
          ids.filterMap
            (normalizeOne r.trace_id r.timestamp r.kpi_type r.kpi_ids r.metadata d.to_dict)
      | _ => []

/-- `IndividualKPIResponse` dataclass. -/
structure IndividualKPIResponse where
  trace_id : Json
  kpi_id : Json
  timestamp : Json
  kpi_type : Json
  data : Json
  chart : Option ChartInfo := none
  metadata : Json := Json.null
deriving DecidableEq

/-- The union `MultiKPIResponse` of the two aggregate response types. -/
inductive MultiKPIResponse where
  | cbbi (r : CBBIMultiKPIResponse) : MultiKPIResponse
  | cmc (r : CMCMultiKPIResponse) : MultiKPIResponse
deriving DecidableEq

/-- The union `KPIResponse` of all three response types. -/
inductive KPIResponse where
  | individual (r : IndividualKPIResponse) : KPIResponse
  | cbbi (r : CBBIMultiKPIResponse) : KPIResponse
  | cmc (r : CMCMultiKPIResponse) : KPIResponse
deriving DecidableEq

/-- The injection of the multi-KPI union into the full response union. -/
def MultiKPIResponse.toKPIResponse : MultiKPIResponse → KPIResponse
  | .cbbi r => .cbbi r
  | .cmc r => .cmc r

/-- `raw_data.get(key, 0.0)`: the permissive aggregate sub-field read. -/
def aggField (raw : JDict) (k : String) : Json :=
  (List.lookup k raw).getD (Json.num 0)

/-- The `data`-block of the `"cbbi-multi"` branch of
`parse_multi_kpi_response`: when the `data` key is present and truthy it
must be a mapping (Python raises on `raw_data.get` otherwise) and each
expected kebab-case key is read with default `0.0`; otherwise no aggregate
is built. -/
def parseCBBIDataBlock (d : JDict) : Except PyErr (Option CBBIData) :=
  match List.lookup "data" d with
  | some dv =>
      if pyTruthy dv then
        match dv with
        | .obj raw =>
            .ok (some ⟨aggField raw "cbbi-btc-price-usd", aggField raw "cbbi-rhodl",
              aggField raw "cbbi-mvrv", aggField raw "cbbi-confidence"⟩)
        | _ => .error .notAMapping
      else .ok none
  | none => .ok none

/-- The `data`-block of the `"cmc-multi"` branch of
`parse_multi_kpi_response`. -/
def parseCMCDataBlock (d : JDict) : Except PyErr (Option CMCData) :=
  match List.lookup "data" d with
  | some dv =>
      if pyTruthy dv then
        match dv with
        | .obj raw =>
            .ok (some ⟨aggField raw "cmc-btc-dominance", aggField raw "cmc-eth-dominance",
              aggField raw "cmc-totalmarketcap-usd", aggField raw "cmc-stablecoinmarketcap-usd"⟩)
        | _ => .error .notAMapping
      else .ok none
  | none => .ok none

/-- `parse_multi_kpi_response`: dispatch on `kpiType` (`data.get`, so an
absent key compares as `None`); within a known branch, build the permissive
aggregate from the `data` block, then index `traceId` and `timestamp`
unconditionally (raw `KeyError` when absent, in that order), and read
`kpiIds` and `metadata` with `.get`. -/
def parse_multi_kpi_response (d : JDict) : Except PyErr MultiKPIResponse :=
  let kt := jget d "kpiType"
  if kt = Json.str "cbbi-multi" then
    match parseCBBIDataBlock d with
    | .error e => .error e
    | .ok cbbi_data =>
        match jindex d "traceId" with
        | .error e => .error e
        | .ok tid =>
            match jindex d "timestamp" with
            | .error e => .error e
            | .ok ts =>
                .ok (.cbbi { trace_id := tid, timestamp := ts,
                             kpi_ids := jget d "kpiIds", data := cbbi_data,
                             metadata := jget d "metadata" })
  else if kt = Json.str "cmc-multi" then
    match parseCMCDataBlock d with
    | .error e => .error e
    | .ok cmc_data =>
        match jindex d "traceId" with
        | .error e => .error e
        | .ok tid =>
            match jindex d "timestamp" with
            | .error e => .error e
            | .ok ts =>
                .ok (.cmc { trace_id := tid, timestamp := ts,
                            kpi_ids := jget d "kpiIds", data := cmc_data,
                            metadata := jget d "metadata" })
  else .error (.unknownMultiType kt)

/-- `parse_individual_kpi_response`: the chart block runs first, then the
five required keys are indexed unconditionally (raw `KeyError` when
absent), and `metadata` is read with `.get`. -/
def parse_individual_kpi_response (d : JDict) : Except PyErr IndividualKPIResponse :=
  match parseChart d with
  | .error e => .error e
  | .ok chart =>
      match jindex d "traceId" with
      | .error e => .error e
      | .ok tid =>
          match jindex d "kpiId" with
          | .error e => .error e
          | .ok kid =>
              match jindex d "timestamp" with
              | .error e => .error e
              | .ok ts =>
                  match jindex d "kpiType" with
                  | .error e => .error e
                  | .ok ktv =>
                      match jindex d "data" with
                      | .error e => .error e
                      | .ok dat =>
                          .ok { trace_id := tid, kpi_id := kid, timestamp := ts,
                                kpi_type := ktv, data := dat, chart := chart,
                                metadata := jget d "metadata" }

/-- `parse_kpi_response`: the three-way shape dispatch — multi-KPI types
first, then the presence of `kpiId`, else failure. -/
def parse_kpi_response (d : JDict) : Except PyErr KPIResponse :=
  let kt := jget d "kpiType"
  if kt = Json.str "cbbi-multi" ∨ kt = Json.str "cmc-multi" then
    (parse_multi_kpi_response d).map MultiKPIResponse.toKPIResponse
  else if containsKey d "kpiId" then
    (parse_individual_kpi_response d).map KPIResponse.individual
  else .error .indeterminateShape

/-! ### Dictionary lemmas -/

@[simp] theorem containsKey_nil (k : String) : containsKey [] k = false := rfl

@[simp] theorem containsKey_cons (k2 : String) (v : Json) (d : JDict) (k : String) :
    containsKey ((k2, v) :: d) k = (decide (k2 = k) || containsKey d k) := by
  simp [containsKey]

theorem containsKey_append (a b : JDict) (k : String) :
    containsKey (a ++ b) k = (containsKey a k || containsKey b k) := by
  simp [containsKey, List.any_append]

@[simp] theorem lookup_cons (k k2 : String) (v : Json) (d : JDict) :
    List.lookup k ((k2, v) :: d) = if k = k2 then some v else List.lookup k d := by
  by_cases h : k = k2
  · have hb : (k == k2) = true := beq_iff_eq.mpr h
    simp [List.lookup, hb, h]
  · have hb : (k == k2) = false := beq_eq_false_iff_ne.mpr h
    simp [List.lookup, hb, h]

theorem lookup_append (a b : JDict) (k : String) :
    List.lookup k (a ++ b) = (List.lookup k a).or (List.lookup k b) := by
  induction a with
  | nil => simp
  | cons p rest ih =>
      obtain ⟨k2, v⟩ := p
      by_cases h : k = k2
      · simp [h]
      · simp [h, ih]

theorem containsKey_eq_isSome_lookup (d : JDict) (k : String) :
    containsKey d k = (List.lookup k d).isSome := by
  induction d with
  | nil => simp
  | cons p rest ih =>
      obtain ⟨k2, v⟩ := p
      by_cases h : k = k2
      · simp [h]
      · simp [h, Ne.symm h, ih]

theorem lookup_eq_none_iff (d : JDict) (k : String) :
    List.lookup k d = none ↔ containsKey d k = false := by
  rw [containsKey_eq_isSome_lookup]
  cases List.lookup k d <;> simp

theorem lookup_map_replace (d : JDict) (k k2 : String) (v : Json) (h : k ≠ k2) :
    List.lookup k (d.map (fun p => if p.1 = k2 then (k2, v) else p)) =
      List.lookup k d := by
  induction d with
  | nil => simp
  | cons p rest ih =>
      obtain ⟨k3, w⟩ := p
      by_cases h3 : k3 = k2
      · subst h3
        simp [h, ih]
      · by_cases hk : k = k3
        · simp [h3, hk]
        · simp [h3, hk, ih]

theorem lookup_map_replace_self (d : JDict) (k : String) (v : Json)
    (hc : containsKey d k = true) :
    List.lookup k (d.map (fun p => if p.1 = k then (k, v) else p)) = some v := by
  induction d with
  | nil => simp at hc
  | cons p rest ih =>
      obtain ⟨k3, w⟩ := p
      by_cases h3 : k3 = k
      · subst h3
        simp
      · have hc2 : containsKey rest k = true := by
          simp [h3] at hc
          exact hc
        simp [h3, Ne.symm h3, ih hc2]

theorem lookup_setKey_self (d : JDict) (k : String) (v : Json) :
    List.lookup k (setKey d k v) = some v := by
  unfold setKey
  by_cases hc : containsKey d k
  · simp [hc, lookup_map_replace_self d k v hc]
  · have hn : List.lookup k d = none := (lookup_eq_none_iff d k).mpr (by simpa using hc)
    simp [hc, lookup_append, hn]

theorem lookup_setKey_ne (d : JDict) (k k2 : String) (v : Json) (h : k ≠ k2) :
    List.lookup k (setKey d k2 v) = List.lookup k d := by
  unfold setKey
  by_cases hc : containsKey d k2
  · simp [hc, lookup_map_replace d k k2 v h]
  · simp [hc, lookup_append, h]

theorem lookup_pyUpdate_not_mem (d af : JDict) (k : String)
    (h : ∀ p ∈ af, p.1 ≠ k) :
    List.lookup k (pyUpdate d af) = List.lookup k d := by
  induction af generalizing d with
  | nil => simp [pyUpdate]
  | cons p rest ih =>
      obtain ⟨k2, v⟩ := p
      have hk : k ≠ k2 :=
        fun he => h (k2, v) (List.mem_cons_self _ _) (by simp [he.symm])
      have := ih (setKey d k2 v) (fun q hq => h q (List.mem_cons_of_mem _ hq))
      simpa [pyUpdate, lookup_setKey_ne d k k2 v hk] using this

theorem lookup_pyUpdate_mem (d af : JDict) (k : String) (v : Json)
    (hnd : (af.map Prod.fst).Nodup) (hm : (k, v) ∈ af) :
    List.lookup k (pyUpdate d af) = some v := by
  induction af generalizing d with
  | nil => simp at hm
  | cons p rest ih =>
      obtain ⟨k2, w⟩ := p
      simp only [List.map_cons, List.nodup_cons] at hnd
      rcases List.mem_cons.mp hm with he | hm2
      · obtain ⟨hk, hv⟩ := Prod.mk.injEq .. ▸ he
        subst hk
        subst hv
        have hfresh : ∀ q ∈ rest, q.1 ≠ k :=
          fun q hq he2 => hnd.1 (he2 ▸ List.mem_map.mpr ⟨q, hq, rfl⟩)
        have := lookup_pyUpdate_not_mem (setKey d k v) rest k hfresh
        simpa [pyUpdate, lookup_setKey_self d k v] using this
      · have := ih (setKey d k2 w) hnd.2 hm2
        simpa [pyUpdate] using this

theorem pyUpdate_eq_append (d af : JDict)
    (hfresh : ∀ p ∈ af, containsKey d p.1 = false)
    (hnd : (af.map Prod.fst).Nodup) :
    pyUpdate d af = d ++ af := by
  induction af generalizing d with
  | nil => simp [pyUpdate]
  | cons p rest ih =>
      obtain ⟨k2, v⟩ := p
      simp only [List.map_cons, List.nodup_cons] at hnd
      have hset : setKey d k2 v = d ++ [(k2, v)] := by
        have := hfresh (k2, v) (List.mem_cons_self _ _)
        simp [setKey, this]
      have hfresh2 : ∀ q ∈ rest, containsKey (d ++ [(k2, v)]) q.1 = false := by
        intro q hq
        have h1 := hfresh q (List.mem_cons_of_mem _ hq)
        have h2 : ¬k2 = q.1 :=
          fun he => hnd.1 (he ▸ List.mem_map.mpr ⟨q, hq, rfl⟩)
        simp [containsKey_append, h1, h2]
      calc pyUpdate d ((k2, v) :: rest)
          = pyUpdate (d ++ [(k2, v)]) rest := by simp [pyUpdate, hset]
        _ = (d ++ [(k2, v)]) ++ rest := ih _ hfresh2 hnd.2
        _ = d ++ ((k2, v) :: rest) := by simp

@[simp] theorem containsKey_optEntry (c : Bool) (key : String) (v : Json) (k : String) :
    containsKey (if c then [(key, v)] else []) k = (c && decide (key = k)) := by
  cases c <;> simp

@[simp] theorem lookup_optEntry (c : Bool) (key k : String) (v : Json) :
    List.lookup k (if c then [(key, v)] else []) =
      (if c then (if k = key then some v else none) else none) := by
  cases c <;> simp

@[simp] theorem containsKey_chartEntry (oc : Option ChartInfo) (k : String) :
    containsKey
      (match oc with | some c => [("chart", Json.obj c.to_dict)] | none => []) k =
      (oc.isSome && decide (("chart" : String) = k)) := by
  cases oc <;> simp

@[simp] theorem lookup_chartEntry (oc : Option ChartInfo) (k : String) :
    List.lookup k
      (match oc with | some c => [("chart", Json.obj c.to_dict)] | none => []) =
      (match oc with
       | some c => if k = "chart" then some (Json.obj c.to_dict) else none
       | none => none) := by
  cases oc <;> simp

/-- `KPIDataUpdate.validate`: the validity check the source itself offers. -/
def KPIDataUpdate.validate (u : KPIDataUpdate) : Bool :=
  pyTruthy u.trace_id && pyTruthy u.kpi_id && pyTruthy u.timestamp &&
    pyTruthy u.kpi_type &&
    (match u.data with | .obj _ => true | _ => false)

/-- `KPIErrorUpdate.validate`: the validity check the source itself offers. -/
def KPIErrorUpdate.validate (e : KPIErrorUpdate) : Bool :=
  pyTruthy e.trace_id && pyTruthy e.error

@[simp] theorem pyTruthy_obj_cons (p : String × Json) (l : List (String × Json)) :
    pyTruthy (Json.obj (p :: l)) = true := by simp [pyTruthy]

@[simp] theorem pyTruthy_null : pyTruthy Json.null = false := rfl

/-- Round trip of a success record through serialization: the required
fields come back verbatim; an untruthy optional field comes back as
`None`. -/
theorem from_dict_to_dict (u : KPIDataUpdate) :
    KPIDataUpdate.from_dict u.to_dict = .ok
      { trace_id := u.trace_id, kpi_id := u.kpi_id, timestamp := u.timestamp,
        kpi_type := u.kpi_type, data := u.data,
        kpi_ids := if pyTruthy u.kpi_ids then u.kpi_ids else Json.null,
        chart := u.chart,
        metadata := if pyTruthy u.metadata then u.metadata else Json.null } := by
  cases hki : pyTruthy u.kpi_ids <;> cases hc : u.chart <;> cases hm : pyTruthy u.metadata <;>
    simp [KPIDataUpdate.to_dict, KPIDataUpdate.from_dict, required_fields, parseChart,
      jget, lookup_append, containsKey_append, hki, hm, hc, ChartInfo.to_dict,
      List.find?]

@[simp] theorem containsKey_optEntryP {c : Prop} [Decidable c] (key : String) (v : Json)
    (k : String) :
    containsKey (if c then [(key, v)] else []) k = (decide c && decide (key = k)) := by
  by_cases h : c <;> simp [h]

@[simp] theorem lookup_optEntryP {c : Prop} [Decidable c] (key k : String) (v : Json) :
    List.lookup k (if c then [(key, v)] else []) =
      (if c then (if k = key then some v else none) else none) := by
  by_cases h : c <;> simp [h]

theorem containsKey_base_dict_known (e : KPIErrorUpdate) (k : String)
    (h : containsKey e.base_dict k = true) : k ∈ known_fields := by
  unfold KPIErrorUpdate.base_dict at h
  simp only [containsKey_append, containsKey_cons, containsKey_nil, containsKey_optEntry,
    containsKey_optEntryP, Bool.or_eq_true, Bool.and_eq_true, decide_eq_true_eq,
    Bool.or_false] at h
  simp only [known_fields, List.mem_cons, List.not_mem_nil, or_false]
  rcases h with ((((((((h | h) | ⟨-, h⟩) | ⟨-, h⟩) | ⟨-, h⟩) | ⟨-, h⟩) | ⟨-, h⟩) | ⟨-, h⟩) | ⟨-, h⟩) <;>
    subst h <;> simp

theorem contains_eq_decide_mem (k : String) (l : List String) :
    l.contains k = decide (k ∈ l) := by
  induction l with
  | nil => simp
  | cons a rest ih => simp [List.contains_cons, ih]

theorem containsKey_of_mem {d : JDict} {p : String × Json} (hp : p ∈ d) :
    containsKey d p.1 = true := by
  simp only [containsKey, List.any_eq_true]
  exact ⟨p, hp, by simp⟩

theorem containsKey_false_of_fresh (afl : JDict) (k : String)
    (hafl : ∀ p ∈ afl, p.1 ∉ known_fields) (hk : k ∈ known_fields) :
    containsKey afl k = false := by
  cases hck : containsKey afl k with
  | false => rfl
  | true =>
      exfalso
      obtain ⟨p, hp, hpk⟩ := List.any_eq_true.mp hck
      exact hafl p hp ((decide_eq_true_eq.mp hpk) ▸ hk)

@[simp] theorem lookup_optEntryN {c : Prop} [Decidable c] (key k : String) (v : Json) :
    List.lookup k (if c then [] else [(key, v)]) =
      (if c then none else (if k = key then some v else none)) := by
  by_cases h : c <;> simp [h]

@[simp] theorem containsKey_optEntryN {c : Prop} [Decidable c] (key : String) (v : Json)
    (k : String) :
    containsKey (if c then [] else [(key, v)]) k = (!decide c && decide (key = k)) := by
  by_cases h : c <;> simp [h]

@[simp] theorem getD_ite_none {c : Prop} [Decidable c] (v d : Json) :
    (Option.getD (if c then none else some v) d) = if c then d else v := by
  by_cases h : c <;> simp [h]

@[simp] theorem getD_ite_some {c : Prop} [Decidable c] (v d : Json) :
    (Option.getD (if c then some v else none) d) = if c then v else d := by
  by_cases h : c <;> simp [h]

theorem err_from_dict_base_append (e : KPIErrorUpdate) (afl : JDict)
    (hafl : ∀ p ∈ afl, p.1 ∉ known_fields)
    (ht : pyTruthy e.trace_id = true) (he : pyTruthy e.error = true) :
    KPIErrorUpdate.from_dict (e.base_dict ++ afl) = .ok
      { trace_id := e.trace_id, error := e.error,
        timestamp := if pyTruthy e.timestamp then e.timestamp else Json.null,
        kpi_id := if pyTruthy e.kpi_id then e.kpi_id else Json.null,
        kpi_ids := if pyTruthy e.kpi_ids then e.kpi_ids else Json.null,
        retry_count := e.retry_count,
        component := if pyTruthy e.component then e.component else Json.null,
        workflow_id := if pyTruthy e.workflow_id then e.workflow_id else Json.null,
        execution_id := if pyTruthy e.execution_id then e.execution_id else Json.null,
        additional_fields := if afl.isEmpty then none else some afl } := by
  have hfk : ∀ k, k ∈ known_fields → List.lookup k afl = none := fun k hk =>
    (lookup_eq_none_iff afl k).mpr (containsKey_false_of_fresh afl k hafl hk)
  have hfilterb : e.base_dict.filter (fun p => !known_fields.contains p.1) = [] := by
    refine List.filter_eq_nil_iff.mpr (fun p hp => ?_)
    have := containsKey_base_dict_known e p.1 (containsKey_of_mem hp)
    simp [contains_eq_decide_mem, this]
  have hfiltera : afl.filter (fun p => !known_fields.contains p.1) = afl := by
    refine List.filter_eq_self.mpr (fun p hp => ?_)
    simp [contains_eq_decide_mem, hafl p hp]
  have hadd : (e.base_dict ++ afl).filter (fun p => !known_fields.contains p.1) = afl := by
    rw [List.filter_append, hfilterb, hfiltera, List.nil_append]
  have h_tid : List.lookup "traceId" (e.base_dict ++ afl) = some e.trace_id := by
    simp [lookup_append, KPIErrorUpdate.base_dict]
  have h_err : List.lookup "error" (e.base_dict ++ afl) = some e.error := by
    simp [lookup_append, KPIErrorUpdate.base_dict]
  have h_ts : List.lookup "timestamp" (e.base_dict ++ afl) =
      (if pyTruthy e.timestamp then some e.timestamp else none) := by
    simp [lookup_append, KPIErrorUpdate.base_dict, hfk "timestamp" (by simp [known_fields])]
  have h_kid : List.lookup "kpiId" (e.base_dict ++ afl) =
      (if pyTruthy e.kpi_id then some e.kpi_id else none) := by
    simp [lookup_append, KPIErrorUpdate.base_dict, hfk "kpiId" (by simp [known_fields])]
  have h_kids : List.lookup "kpiIds" (e.base_dict ++ afl) =
      (if pyTruthy e.kpi_ids then some e.kpi_ids else none) := by
    simp [lookup_append, KPIErrorUpdate.base_dict, hfk "kpiIds" (by simp [known_fields])]
  have h_rc : List.lookup "retryCount" (e.base_dict ++ afl) =
      (if e.retry_count ≠ Json.null then some e.retry_count else none) := by
    simp [lookup_append, KPIErrorUpdate.base_dict, hfk "retryCount" (by simp [known_fields])]
  have h_comp : List.lookup "component" (e.base_dict ++ afl) =
      (if pyTruthy e.component then some e.component else none) := by
    simp [lookup_append, KPIErrorUpdate.base_dict, hfk "component" (by simp [known_fields])]
  have h_wf : List.lookup "workflowId" (e.base_dict ++ afl) =
      (if pyTruthy e.workflow_id then some e.workflow_id else none) := by
    simp [lookup_append, KPIErrorUpdate.base_dict, hfk "workflowId" (by simp [known_fields])]
  have h_ex : List.lookup "executionId" (e.base_dict ++ afl) =
      (if pyTruthy e.execution_id then some e.execution_id else none) := by
    simp [lookup_append, KPIErrorUpdate.base_dict, hfk "executionId" (by simp [known_fields])]
  have hretry : (if e.retry_count = Json.null then Json.null else e.retry_count) =
      e.retry_count := by
    by_cases h : e.retry_count = Json.null <;> simp [h]
  simp only [KPIErrorUpdate.from_dict, jget, h_tid, h_err, h_ts, h_kid, h_kids, h_rc,
    h_comp, h_wf, h_ex, hadd, Option.getD_some, getD_ite_some, hretry, ht, he,
    Bool.not_true, Bool.false_eq_true, if_false]
  by_cases h : e.retry_count = Json.null <;> simp [h]

theorem err_from_dict_to_dict (e : KPIErrorUpdate)
    (ht : pyTruthy e.trace_id = true) (he : pyTruthy e.error = true)
    (haf : e.additional_fields = none ∨
      ∃ af, e.additional_fields = some af ∧ af ≠ [] ∧ (af.map Prod.fst).Nodup ∧
        ∀ p ∈ af, p.1 ∉ known_fields) :
    KPIErrorUpdate.from_dict e.to_dict = .ok
      { trace_id := e.trace_id, error := e.error,
        timestamp := if pyTruthy e.timestamp then e.timestamp else Json.null,
        kpi_id := if pyTruthy e.kpi_id then e.kpi_id else Json.null,
        kpi_ids := if pyTruthy e.kpi_ids then e.kpi_ids else Json.null,
        retry_count := e.retry_count,
        component := if pyTruthy e.component then e.component else Json.null,
        workflow_id := if pyTruthy e.workflow_id then e.workflow_id else Json.null,
        execution_id := if pyTruthy e.execution_id then e.execution_id else Json.null,
        additional_fields := e.additional_fields } := by
  rcases haf with h0 | ⟨af, hsome, hne, hnd, hfresh⟩
  · have hdict : e.to_dict = e.base_dict ++ [] := by
      simp [KPIErrorUpdate.to_dict, h0]
    rw [hdict, err_from_dict_base_append e [] (by simp) ht he]
    simp [h0]
  · have hni : af.isEmpty = false := by
      cases af with
      | nil => exact absurd rfl hne
      | cons a l => rfl
    have hfreshb : ∀ p ∈ af, containsKey e.base_dict p.1 = false := by
      intro p hp
      cases hck : containsKey e.base_dict p.1 with
      | false => rfl
      | true => exact absurd (containsKey_base_dict_known e p.1 hck) (hfresh p hp)
    have hdict : e.to_dict = e.base_dict ++ af := by
      simp [KPIErrorUpdate.to_dict, hsome, hni, pyUpdate_eq_append _ _ hfreshb hnd]
    rw [hdict, err_from_dict_base_append e af hfresh ht he]
    simp [hsome, hni]

/-! ### Claims -/

/-- C2 counterexample: the claim fails as stated.  The error record with
`trace_id = "t"`, a non-empty `error` mapping and `kpi_id = ""` is validly
constructed (it satisfies the annotations, the spec invariants and the
source's own `validate`), yet `from_dict(to_dict(r))` returns `kpi_id =
None`, not `""`, because `to_dict` omits `kpiId` by truthiness. -/
theorem C2_counterexample :
    (KPIErrorUpdate.mk (Json.str "t") (Json.obj [("message", Json.str "m")])
      Json.null (Json.str "") Json.null Json.null Json.null Json.null Json.null
      none).validate = true ∧
    (KPIErrorUpdate.from_dict
      (KPIErrorUpdate.mk (Json.str "t") (Json.obj [("message", Json.str "m")])
        Json.null (Json.str "") Json.null Json.null Json.null Json.null Json.null
        none).to_dict).map KPIErrorUpdate.kpi_id = Except.ok Json.null ∧
    Json.str "" ≠ Json.null := by decide

/-- C2 (amended): round trip through serialization.  For every
`KPIDataUpdate`, `from_dict(to_dict(r))` succeeds and reproduces `trace_id`,
`kpi_id` and `data` verbatim.  For every `KPIErrorUpdate` with truthy
`trace_id` and `error`, a `kpi_id` that is `None` or non-empty, and
`additional_fields` either absent or a non-empty mapping whose keys avoid
the known-key set, `from_dict(to_dict(r))` succeeds and reproduces
`trace_id`, `kpi_id` and the exact `additional_fields` value (absent stays
absent, never an empty mapping). -/
theorem C2_roundtrip_core_fields :
    (∀ u : KPIDataUpdate, ∃ u2, KPIDataUpdate.from_dict u.to_dict = Except.ok u2 ∧
        u2.trace_id = u.trace_id ∧ u2.kpi_id = u.kpi_id ∧ u2.data = u.data) ∧
    (∀ e : KPIErrorUpdate,
        pyTruthy e.trace_id = true → pyTruthy e.error = true →
        (e.kpi_id = Json.null ∨ pyTruthy e.kpi_id = true) →
        (e.additional_fields = none ∨
          ∃ af, e.additional_fields = some af ∧ af ≠ [] ∧ (af.map Prod.fst).Nodup ∧
            ∀ p ∈ af, p.1 ∉ known_fields) →
        ∃ e2, KPIErrorUpdate.from_dict e.to_dict = Except.ok e2 ∧
          e2.trace_id = e.trace_id ∧ e2.kpi_id = e.kpi_id ∧
          e2.additional_fields = e.additional_fields) := by
  constructor
  · intro u
    exact ⟨_, from_dict_to_dict u, rfl, rfl, rfl⟩
  · intro e ht he hkid haf
    refine ⟨_, err_from_dict_to_dict e ht he haf, rfl, ?_, rfl⟩
    rcases hkid with h | h
    · simp [h]
    · simp [h]

/-- C2 witness: the amended round trip evaluated on one concrete success
record and one concrete error record with additional fields. -/
theorem C2_roundtrip_witness :
    (∃ u2, KPIDataUpdate.from_dict
        (KPIDataUpdate.mk (Json.str "t") (Json.str "k") (Json.str "s")
          (Json.str "p") (Json.obj [("v", Json.num 1)]) Json.null none
          Json.null).to_dict = Except.ok u2 ∧
        u2.trace_id = Json.str "t" ∧ u2.kpi_id = Json.str "k" ∧
        u2.data = Json.obj [("v", Json.num 1)]) ∧
    (∃ e2, KPIErrorUpdate.from_dict
        (KPIErrorUpdate.mk (Json.str "t") (Json.obj [("message", Json.str "m")])
          Json.null (Json.str "k") Json.null Json.null Json.null Json.null
          Json.null (some [("foo", Json.num 3)])).to_dict = Except.ok e2 ∧
        e2.trace_id = Json.str "t" ∧ e2.kpi_id = Json.str "k" ∧
        e2.additional_fields = some [("foo", Json.num 3)]) :=
  ⟨C2_roundtrip_core_fields.1 _,
   C2_roundtrip_core_fields.2 _ (by decide) (by decide) (Or.inr (by decide))
     (Or.inr ⟨[("foo", Json.num 3)], rfl, by decide, by decide, by decide⟩)⟩

theorem containsKey_to_dict_known (e : KPIErrorUpdate) (k : String)
    (hk : k ∈ known_fields)
    (haf : e.additional_fields = none ∨
      ∃ af, e.additional_fields = some af ∧ ∀ p ∈ af, p.1 ∉ known_fields) :
    containsKey e.to_dict k = containsKey e.base_dict k := by
  rcases haf with h0 | ⟨af, hsome, hfresh⟩
  · simp [KPIErrorUpdate.to_dict, h0]
  · by_cases hni : af.isEmpty
    · simp [KPIErrorUpdate.to_dict, hsome, hni]
    · have hne : ∀ p ∈ af, p.1 ≠ k := fun p hp he2 => hfresh p hp (he2 ▸ hk)
      have hdict : e.to_dict = pyUpdate e.base_dict af := by
        simp [KPIErrorUpdate.to_dict, hsome, hni]
      rw [hdict, containsKey_eq_isSome_lookup,
        lookup_pyUpdate_not_mem e.base_dict af k hne, ← containsKey_eq_isSome_lookup]

/-- C10: serialization omits optional keys by truthiness, with `retryCount`
alone guarded by `is not None`; consequently `kpi_ids = []` serializes like
`kpi_ids = None` and round-trips to `None`. -/
theorem C10_truthiness_omission :
    (∀ u : KPIDataUpdate,
       containsKey u.to_dict "kpiIds" = pyTruthy u.kpi_ids ∧
       containsKey u.to_dict "metadata" = pyTruthy u.metadata ∧
       containsKey u.to_dict "chart" = u.chart.isSome) ∧
    (∀ e : KPIErrorUpdate,
       (e.additional_fields = none ∨
         ∃ af, e.additional_fields = some af ∧ ∀ p ∈ af, p.1 ∉ known_fields) →
       containsKey e.to_dict "timestamp" = pyTruthy e.timestamp ∧
       containsKey e.to_dict "kpiId" = pyTruthy e.kpi_id ∧
       containsKey e.to_dict "kpiIds" = pyTruthy e.kpi_ids ∧
       containsKey e.to_dict "retryCount" = decide (e.retry_count ≠ Json.null) ∧
       containsKey e.to_dict "component" = pyTruthy e.component ∧
       containsKey e.to_dict "workflowId" = pyTruthy e.workflow_id ∧
       containsKey e.to_dict "executionId" = pyTruthy e.execution_id) ∧
    (∀ u : KPIDataUpdate, u.kpi_ids = Json.arr [] →
       u.to_dict = (KPIDataUpdate.mk u.trace_id u.kpi_id u.timestamp u.kpi_type
         u.data Json.null u.chart u.metadata).to_dict ∧
       (KPIDataUpdate.from_dict u.to_dict).map KPIDataUpdate.kpi_ids =
         Except.ok Json.null) := by
  refine ⟨fun u => ?_, fun e haf => ?_, fun u h => ?_⟩
  · simp [KPIDataUpdate.to_dict, containsKey_append]
  · rw [containsKey_to_dict_known e "timestamp" (by simp [known_fields]) haf,
      containsKey_to_dict_known e "kpiId" (by simp [known_fields]) haf,
      containsKey_to_dict_known e "kpiIds" (by simp [known_fields]) haf,
      containsKey_to_dict_known e "retryCount" (by simp [known_fields]) haf,
      containsKey_to_dict_known e "component" (by simp [known_fields]) haf,
      containsKey_to_dict_known e "workflowId" (by simp [known_fields]) haf,
      containsKey_to_dict_known e "executionId" (by simp [known_fields]) haf]
    simp [KPIErrorUpdate.base_dict, containsKey_append]
  · constructor
    · simp [KPIDataUpdate.to_dict, h, pyTruthy]
    · rw [from_dict_to_dict u]
      simp [Except.map, h, pyTruthy]

/-- C10 witness: `retry_count = 0` is emitted (unlike the truthiness-guarded
keys), and `kpi_ids = []` round-trips to `None`, both at concrete records. -/
theorem C10_witness :
    containsKey (KPIErrorUpdate.mk (Json.str "t") (Json.obj [("m", Json.num 1)])
      Json.null Json.null Json.null (Json.num 0) Json.null Json.null Json.null
      none).to_dict "retryCount" = true ∧
    (KPIDataUpdate.from_dict (KPIDataUpdate.mk (Json.str "t") (Json.str "k")
      (Json.str "s") (Json.str "p") (Json.obj []) (Json.arr []) none
      Json.null).to_dict).map KPIDataUpdate.kpi_ids = Except.ok Json.null :=
  ⟨by simpa using (C10_truthiness_omission.2.1 (KPIErrorUpdate.mk (Json.str "t")
      (Json.obj [("m", Json.num 1)]) Json.null Json.null Json.null (Json.num 0)
      Json.null Json.null Json.null none) (Or.inl rfl)).2.2.2.1,
   (C10_truthiness_omission.2.2 (KPIDataUpdate.mk (Json.str "t") (Json.str "k")
      (Json.str "s") (Json.str "p") (Json.obj []) (Json.arr []) none
      Json.null) rfl).2⟩

/-- C3 counterexample: the claim fails as stated.  With
`error = {message: "", error: "E"}` the `message` entry is present and
non-null, so "first non-null" would return `""`; the chained Python `or`
skips it for being falsy and returns `"E"` instead. -/
theorem C3_counterexample :
    List.lookup "message" [("message", Json.str ""), ("error", Json.str "E")] =
      some (Json.str "") ∧
    Json.str "" ≠ Json.null ∧
    (KPIErrorUpdate.mk (Json.str "t")
      (Json.obj [("message", Json.str ""), ("error", Json.str "E")])
      Json.null Json.null Json.null Json.null Json.null Json.null Json.null
      none).get_error_message = Json.str "E" := by decide

/-- C3 (amended): when `error` is a mapping, `get_error_message` returns the
first truthy (not merely non-null) value among its `message`, `error`,
`description` entries in that order, else the stringified form of the
mapping; when `error` is not a mapping, its stringified form.  In
particular `error = {message: M, error: E}` with `M` non-empty yields `M`. -/
theorem C3_error_message_tiebreak :
    (∀ (e : KPIErrorUpdate) (kvs : List (String × Json)), e.error = Json.obj kvs →
       e.get_error_message =
         (if pyTruthy (jget kvs "message") then jget kvs "message"
          else if pyTruthy (jget kvs "error") then jget kvs "error"
          else if pyTruthy (jget kvs "description") then jget kvs "description"
          else Json.str (pyStr e.error))) ∧
    (∀ e : KPIErrorUpdate, (∀ kvs, e.error ≠ Json.obj kvs) →
       e.get_error_message = Json.str (pyStr e.error)) ∧
    (∀ (e : KPIErrorUpdate) (M E : String), M ≠ "" →
       e.error = Json.obj [("message", Json.str M), ("error", Json.str E)] →
       e.get_error_message = Json.str M) := by
  refine ⟨fun e kvs he => ?_, fun e hne => ?_, fun e M E hM he => ?_⟩
  · simp only [KPIErrorUpdate.get_error_message, he, jget]
  · cases herr : e.error <;>
      simp only [KPIErrorUpdate.get_error_message, herr] <;>
      first
        | rfl
        | exact absurd herr (by solve_by_elim)
  · simp [KPIErrorUpdate.get_error_message, he, jget, pyTruthy, hM]

/-- C3 witness: the amended tie-break evaluated at
`error = {message: "M", error: "E"}` returns `"M"`. -/
theorem C3_tiebreak_witness :
    (KPIErrorUpdate.mk (Json.str "t")
      (Json.obj [("message", Json.str "M"), ("error", Json.str "E")])
      Json.null Json.null Json.null Json.null Json.null Json.null Json.null
      none).get_error_message = Json.str "M" :=
  C3_error_message_tiebreak.2.2 _ "M" "E" (by decide) rfl

/-- C4 counterexample: the claim fails as stated.  With `trace_id = "T"` and
`additional_fields = {traceId: "X"}`, serialization emits `traceId = "X"`:
`result.update(additional_fields)` overwrites the known-key value written
first, so the additional-field value wins, not the known-key value. -/
theorem C4_counterexample :
    List.lookup "traceId" (KPIErrorUpdate.mk (Json.str "T")
      (Json.obj [("m", Json.num 1)]) Json.null Json.null Json.null Json.null
      Json.null Json.null Json.null
      (some [("traceId", Json.str "X")])).to_dict = some (Json.str "X") ∧
    Json.str "X" ≠ Json.str "T" := by decide

/-- C4 (amended): on a key collision between `additional_fields` and the
known-key set, the additional-field value always wins: `to_dict` emits
every entry of a duplicate-free `additional_fields` mapping at its own
value, because `dict.update` overwrites the keys written first. -/
theorem C4_collision_additional_wins :
    ∀ (e : KPIErrorUpdate) (af : JDict) (k : String) (v : Json),
      e.additional_fields = some af → (af.map Prod.fst).Nodup → (k, v) ∈ af →
      List.lookup k e.to_dict = some v := by
  intro e af k v hsome hnd hm
  have hni : af.isEmpty = false := by
    cases af with
    | nil => simp at hm
    | cons a l => rfl
  have hdict : e.to_dict = pyUpdate e.base_dict af := by
    simp [KPIErrorUpdate.to_dict, hsome, hni]
  rw [hdict]
  exact lookup_pyUpdate_mem _ _ _ _ hnd hm

/-- C4 witness: the amended collision rule evaluated on a concrete record
whose `additional_fields` collides on `error`. -/
theorem C4_collision_witness :
    List.lookup "error" (KPIErrorUpdate.mk (Json.str "T")
      (Json.obj [("m", Json.num 1)]) Json.null Json.null Json.null Json.null
      Json.null Json.null Json.null
      (some [("error", Json.str "boom")])).to_dict = some (Json.str "boom") :=
  C4_collision_additional_wins _ [("error", Json.str "boom")] _ _ rfl
    (by decide) (by decide)

theorem parseChart_not_missingField (d : JDict) (g : String) :
    parseChart d ≠ Except.error (PyErr.missingField g) := by
  intro hc
  unfold parseChart at hc
  cases hl : List.lookup "chart" d with
  | none => rw [hl] at hc; exact Except.noConfusion hc
  | some cv =>
      rw [hl] at hc
      by_cases ht : pyTruthy cv
      · simp only [ht, if_true] at hc
        cases cv with
        | obj ckvs =>
            dsimp only at hc
            cases hu : List.lookup "url" ckvs with
            | some u => rw [hu] at hc; exact Except.noConfusion hc
            | none =>
                rw [hu] at hc
                simp only [Except.error.injEq] at hc
                exact PyErr.noConfusion hc
        | null => simp at ht
        | bool b => dsimp only at hc; simp only [Except.error.injEq] at hc; exact PyErr.noConfusion hc
        | num q => dsimp only at hc; simp only [Except.error.injEq] at hc; exact PyErr.noConfusion hc
        | str s => dsimp only at hc; simp only [Except.error.injEq] at hc; exact PyErr.noConfusion hc
        | arr xs => dsimp only at hc; simp only [Except.error.injEq] at hc; exact PyErr.noConfusion hc
      · simp [ht] at hc

/-- C5: `KPIDataUpdate.from_dict` fails with a missing-field error naming an
absent required key exactly when one of `traceId`, `kpiId`, `timestamp`,
`kpiType`, `data` is absent; the named key is the first absent one in that
order; with all five present no missing-field error is possible. -/
theorem C5_missing_required_field (d : JDict) :
    ((∃ f ∈ required_fields, containsKey d f = false) →
       ∃ f ∈ required_fields, containsKey d f = false ∧
         KPIDataUpdate.from_dict d = Except.error (PyErr.missingField f)) ∧
    (∀ f, required_fields.find? (fun g => !containsKey d g) = some f →
       KPIDataUpdate.from_dict d = Except.error (PyErr.missingField f)) ∧
    ((∀ f ∈ required_fields, containsKey d f = true) →
       ∀ g, KPIDataUpdate.from_dict d ≠ Except.error (PyErr.missingField g)) := by
  have hfind : ∀ f, required_fields.find? (fun g => !containsKey d g) = some f →
      KPIDataUpdate.from_dict d = Except.error (PyErr.missingField f) := by
    intro f hf
    simp [KPIDataUpdate.from_dict, hf]
  refine ⟨fun hex => ?_, hfind, fun hall g hcontra => ?_⟩
  · obtain ⟨f0, hf0, habs⟩ := hex
    have hsome : (required_fields.find? (fun g => !containsKey d g)).isSome := by
      rw [List.find?_isSome]
      exact ⟨f0, hf0, by simp [habs]⟩
    obtain ⟨f, hf⟩ := Option.isSome_iff_exists.mp hsome
    refine ⟨f, List.mem_of_find?_eq_some hf, ?_, hfind f hf⟩
    have := List.find?_some hf
    simpa using this
  · have hnone : required_fields.find? (fun g => !containsKey d g) = none := by
      apply List.find?_eq_none.mpr
      intro x hx
      simp [hall x hx]
    simp only [KPIDataUpdate.from_dict, hnone] at hcontra
    cases hpc : parseChart d with
    | error e =>
        rw [hpc] at hcontra
        simp only [Except.error.injEq] at hcontra
        exact parseChart_not_missingField d g (hcontra ▸ hpc)
    | ok c => rw [hpc] at hcontra; exact Except.noConfusion hcontra

/-- C5 witness: a mapping lacking only `data` fails naming `data`, and a
mapping with all five keys yields no missing-field error. -/
theorem C5_missing_field_witness :
    KPIDataUpdate.from_dict [("traceId", Json.str "t"), ("kpiId", Json.str "k"),
      ("timestamp", Json.str "s"), ("kpiType", Json.str "p")] =
      Except.error (PyErr.missingField "data") ∧
    ∀ g, KPIDataUpdate.from_dict [("traceId", Json.str "t"),
      ("kpiId", Json.str "k"), ("timestamp", Json.str "s"),
      ("kpiType", Json.str "p"), ("data", Json.obj [])] ≠
      Except.error (PyErr.missingField g) :=
  ⟨(C5_missing_required_field _).2.1 "data" (by decide),
   (C5_missing_required_field _).2.2 (by decide)⟩

/-- C6: `parse_multi_kpi_response` on a mapping whose `kpiType` is neither
`"cbbi-multi"` nor `"cmc-multi"` (including an absent `kpiType`, read as
`None`) fails with an unknown-multi-KPI-type error carrying the offending
value, whose message names that value. -/
theorem C6_unknown_multi_type (d : JDict) :
    (∀ v, List.lookup "kpiType" d = some v →
       v ≠ Json.str "cbbi-multi" → v ≠ Json.str "cmc-multi" →
       parse_multi_kpi_response d = Except.error (PyErr.unknownMultiType v) ∧
       (PyErr.unknownMultiType v).message = "Unknown multi-KPI type: " ++ pyStr v) ∧
    (List.lookup "kpiType" d = none →
       parse_multi_kpi_response d = Except.error (PyErr.unknownMultiType Json.null)) := by
  constructor
  · intro v hv h1 h2
    refine ⟨?_, rfl⟩
    simp [parse_multi_kpi_response, jget, hv, h1, h2]
  · intro hv
    simp [parse_multi_kpi_response, jget, hv]

/-- C6 witness: `kpiType = "bogus-multi"` fails naming `"bogus-multi"`. -/
theorem C6_unknown_type_witness :
    parse_multi_kpi_response [("kpiType", Json.str "bogus-multi")] =
      Except.error (PyErr.unknownMultiType (Json.str "bogus-multi")) ∧
    (PyErr.unknownMultiType (Json.str "bogus-multi")).message =
      "Unknown multi-KPI type: bogus-multi" := by
  have h := (C6_unknown_multi_type [("kpiType", Json.str "bogus-multi")]).1
    (Json.str "bogus-multi") (by decide) (by decide) (by decide)
  exact ⟨h.1, by rw [h.2]; rfl⟩

/-- C7: with a known multi `kpiType` and `traceId`/`timestamp` present, a
present non-empty `data` mapping never makes parsing fail: each expected
kebab-case sub-field is read permissively, keeping a present value and
defaulting an absent one to `0.0`. -/
theorem C7_permissive_aggregate (d : JDict) (tid ts : Json) :
    (List.lookup "kpiType" d = some (Json.str "cbbi-multi") →
     List.lookup "traceId" d = some tid →
     List.lookup "timestamp" d = some ts →
     ∀ raw, List.lookup "data" d = some (Json.obj raw) → raw ≠ [] →
       parse_multi_kpi_response d = Except.ok (.cbbi
         { trace_id := tid, timestamp := ts, kpi_type := Json.str "cbbi-multi",
           kpi_ids := jget d "kpiIds",
           data := some ⟨aggField raw "cbbi-btc-price-usd", aggField raw "cbbi-rhodl",
             aggField raw "cbbi-mvrv", aggField raw "cbbi-confidence"⟩,
           metadata := jget d "metadata" })) ∧
    (List.lookup "kpiType" d = some (Json.str "cmc-multi") →
     List.lookup "traceId" d = some tid →
     List.lookup "timestamp" d = some ts →
     ∀ raw, List.lookup "data" d = some (Json.obj raw) → raw ≠ [] →
       parse_multi_kpi_response d = Except.ok (.cmc
         { trace_id := tid, timestamp := ts, kpi_type := Json.str "cmc-multi",
           kpi_ids := jget d "kpiIds",
           data := some ⟨aggField raw "cmc-btc-dominance", aggField raw "cmc-eth-dominance",
             aggField raw "cmc-totalmarketcap-usd",
             aggField raw "cmc-stablecoinmarketcap-usd"⟩,
           metadata := jget d "metadata" })) ∧
    (∀ (raw : JDict) (k : String), List.lookup k raw = none →
       aggField raw k = Json.num 0) ∧
    (∀ (raw : JDict) (k : String) (v : Json), List.lookup k raw = some v →
       aggField raw k = v) := by
  refine ⟨fun hkt htid hts raw hdata hne => ?_, fun hkt htid hts raw hdata hne => ?_,
    fun raw k h => by simp [aggField, h], fun raw k v h => by simp [aggField, h]⟩
  · cases raw with
    | nil => exact absurd rfl hne
    | cons p rest =>
        simp [parse_multi_kpi_response, jget, hkt, parseCBBIDataBlock, hdata,
          jindex, htid, hts]
  · cases raw with
    | nil => exact absurd rfl hne
    | cons p rest =>
        simp [parse_multi_kpi_response, jget, hkt, parseCMCDataBlock, hdata,
          jindex, htid, hts]

/-- C7 witness: a CBBI payload carrying only `cbbi-rhodl` parses with the
other three sub-fields defaulted to `0.0` and the given value kept. -/
theorem C7_permissive_witness :
    parse_multi_kpi_response [("kpiType", Json.str "cbbi-multi"),
      ("traceId", Json.str "t"), ("timestamp", Json.str "s"),
      ("data", Json.obj [("cbbi-rhodl", Json.num 5)])] =
    Except.ok (.cbbi
      { trace_id := Json.str "t", timestamp := Json.str "s",
        kpi_type := Json.str "cbbi-multi", kpi_ids := Json.null,
        data := some ⟨Json.num 0, Json.num 5, Json.num 0, Json.num 0⟩,
        metadata := Json.null }) := by
  have h := (C7_permissive_aggregate [("kpiType", Json.str "cbbi-multi"),
    ("traceId", Json.str "t"), ("timestamp", Json.str "s"),
    ("data", Json.obj [("cbbi-rhodl", Json.num 5)])] (Json.str "t")
    (Json.str "s")).1 (by decide) (by decide) (by decide)
    [("cbbi-rhodl", Json.num 5)] (by decide) (by decide)
  simpa using h

/-- C8: the three-way dispatch of `parse_kpi_response` in its fixed order —
a multi `kpiType` routes to multi-KPI parsing with no condition on `kpiId`
(so the multi check takes precedence), otherwise a present `kpiId` routes
to individual parsing, otherwise the indeterminate-shape error. -/
theorem C8_dispatch_precedence (d : JDict) :
    (jget d "kpiType" = Json.str "cbbi-multi" ∨ jget d "kpiType" = Json.str "cmc-multi" →
       parse_kpi_response d =
         (parse_multi_kpi_response d).map MultiKPIResponse.toKPIResponse) ∧
    (jget d "kpiType" ≠ Json.str "cbbi-multi" → jget d "kpiType" ≠ Json.str "cmc-multi" →
       containsKey d "kpiId" = true →
       parse_kpi_response d =
         (parse_individual_kpi_response d).map KPIResponse.individual) ∧
    (jget d "kpiType" ≠ Json.str "cbbi-multi" → jget d "kpiType" ≠ Json.str "cmc-multi" →
       containsKey d "kpiId" = false →
       parse_kpi_response d = Except.error PyErr.indeterminateShape) := by
  refine ⟨fun h => ?_, fun h1 h2 hk => ?_, fun h1 h2 hk => ?_⟩
  · rcases h with h | h <;> simp [parse_kpi_response, h]
  · simp [parse_kpi_response, h1, h2, hk]
  · simp [parse_kpi_response, h1, h2, hk]

/-- C8 witness: a mapping carrying both `kpiType = "cbbi-multi"` and a
`kpiId` key routes to multi-KPI handling, not individual handling. -/
theorem C8_dispatch_witness :
    containsKey [("kpiType", Json.str "cbbi-multi"), ("kpiId", Json.str "k"),
      ("traceId", Json.str "t"), ("timestamp", Json.str "s")] "kpiId" = true ∧
    parse_kpi_response [("kpiType", Json.str "cbbi-multi"), ("kpiId", Json.str "k"),
      ("traceId", Json.str "t"), ("timestamp", Json.str "s")] =
      (parse_multi_kpi_response [("kpiType", Json.str "cbbi-multi"),
        ("kpiId", Json.str "k"), ("traceId", Json.str "t"),
        ("timestamp", Json.str "s")]).map MultiKPIResponse.toKPIResponse :=
  ⟨by decide,
   (C8_dispatch_precedence [("kpiType", Json.str "cbbi-multi"),
      ("kpiId", Json.str "k"), ("traceId", Json.str "t"),
      ("timestamp", Json.str "s")]).1 (Or.inl (by decide))⟩

theorem parseCBBIDataBlock_error (d : JDict) (e : PyErr)
    (h : parseCBBIDataBlock d = .error e) : e = PyErr.notAMapping := by
  unfold parseCBBIDataBlock at h
  cases hd : List.lookup "data" d with
  | none => rw [hd] at h; exact Except.noConfusion h
  | some v =>
      rw [hd] at h
      by_cases htv : pyTruthy v
      · simp only [htv, if_true] at h
        cases v <;> dsimp only at h <;> simp_all
      · simp [htv] at h

theorem parseCMCDataBlock_error (d : JDict) (e : PyErr)
    (h : parseCMCDataBlock d = .error e) : e = PyErr.notAMapping := by
  unfold parseCMCDataBlock at h
  cases hd : List.lookup "data" d with
  | none => rw [hd] at h; exact Except.noConfusion h
  | some v =>
      rw [hd] at h
      by_cases htv : pyTruthy v
      · simp only [htv, if_true] at h
        cases v <;> dsimp only at h <;> simp_all
      · simp [htv] at h

/-- C9: within the known-type branches of `parse_multi_kpi_response`, the
`traceId` and `timestamp` keys are indexed unconditionally: success implies
both are present; when the `data` block is well formed but `traceId` (or
`timestamp`) is absent, parsing fails with the raw `KeyError` naming that
key (`traceId` first), and a named missing-field error is never raised. -/
theorem C9_raw_key_lookup (d : JDict)
    (hkt : jget d "kpiType" = Json.str "cbbi-multi" ∨
           jget d "kpiType" = Json.str "cmc-multi") :
    (∀ r, parse_multi_kpi_response d = Except.ok r →
       containsKey d "traceId" = true ∧ containsKey d "timestamp" = true) ∧
    ((∀ v, List.lookup "data" d = some v → pyTruthy v = true →
        ∃ raw, v = Json.obj raw) →
      (containsKey d "traceId" = false →
         parse_multi_kpi_response d = Except.error (PyErr.keyError "traceId")) ∧
      (containsKey d "traceId" = true → containsKey d "timestamp" = false →
         parse_multi_kpi_response d = Except.error (PyErr.keyError "timestamp"))) ∧
    (∀ f, parse_multi_kpi_response d ≠ Except.error (PyErr.missingField f)) := by
  rcases hkt with h | h
  · refine ⟨fun r hr => ?_, fun hdok => ?_, fun f hcontra => ?_⟩
    · cases hb : parseCBBIDataBlock d with
      | error e => simp [parse_multi_kpi_response, h, hb] at hr
      | ok cb =>
          cases hti : List.lookup "traceId" d with
          | none => simp [parse_multi_kpi_response, h, hb, jindex, hti] at hr
          | some tv =>
              cases hts2 : List.lookup "timestamp" d with
              | none => simp [parse_multi_kpi_response, h, hb, jindex, hti, hts2] at hr
              | some sv => simp [containsKey_eq_isSome_lookup, hti, hts2]
    · have hb : ∃ cb, parseCBBIDataBlock d = .ok cb := by
        cases hd : List.lookup "data" d with
        | none => exact ⟨none, by simp [parseCBBIDataBlock, hd]⟩
        | some v =>
            by_cases htv : pyTruthy v
            · obtain ⟨raw, rfl⟩ := hdok v hd htv
              exact ⟨some ⟨aggField raw "cbbi-btc-price-usd", aggField raw "cbbi-rhodl",
                aggField raw "cbbi-mvrv", aggField raw "cbbi-confidence"⟩,
                by simp [parseCBBIDataBlock, hd, htv]⟩
            · exact ⟨none, by simp [parseCBBIDataBlock, hd, htv]⟩
      obtain ⟨cb, hb⟩ := hb
      constructor
      · intro h1
        have hti : List.lookup "traceId" d = none := (lookup_eq_none_iff d _).mpr h1
        simp [parse_multi_kpi_response, h, hb, jindex, hti]
      · intro h1 h2
        obtain ⟨tv, hti⟩ := Option.isSome_iff_exists.mp
          (by rw [← containsKey_eq_isSome_lookup]; exact h1)
        have hts2 : List.lookup "timestamp" d = none := (lookup_eq_none_iff d _).mpr h2
        simp [parse_multi_kpi_response, h, hb, jindex, hti, hts2]
    · cases hb : parseCBBIDataBlock d with
      | error e =>
          have := parseCBBIDataBlock_error d e hb
          subst this
          simp [parse_multi_kpi_response, h, hb] at hcontra
      | ok cb =>
          cases hti : List.lookup "traceId" d with
          | none => simp [parse_multi_kpi_response, h, hb, jindex, hti] at hcontra
          | some tv =>
              cases hts2 : List.lookup "timestamp" d with
              | none =>
                  simp [parse_multi_kpi_response, h, hb, jindex, hti, hts2] at hcontra
              | some sv =>
                  simp [parse_multi_kpi_response, h, hb, jindex, hti, hts2] at hcontra
  · refine ⟨fun r hr => ?_, fun hdok => ?_, fun f hcontra => ?_⟩
    · cases hb : parseCMCDataBlock d with
      | error e => simp [parse_multi_kpi_response, h, hb] at hr
      | ok cb =>
          cases hti : List.lookup "traceId" d with
          | none => simp [parse_multi_kpi_response, h, hb, jindex, hti] at hr
          | some tv =>
              cases hts2 : List.lookup "timestamp" d with
              | none => simp [parse_multi_kpi_response, h, hb, jindex, hti, hts2] at hr
              | some sv => simp [containsKey_eq_isSome_lookup, hti, hts2]
    · have hb : ∃ cb, parseCMCDataBlock d = .ok cb := by
        cases hd : List.lookup "data" d with
        | none => exact ⟨none, by simp [parseCMCDataBlock, hd]⟩
        | some v =>
            by_cases htv : pyTruthy v
            · obtain ⟨raw, rfl⟩ := hdok v hd htv
              exact ⟨some ⟨aggField raw "cmc-btc-dominance", aggField raw "cmc-eth-dominance",
                aggField raw "cmc-totalmarketcap-usd",
                aggField raw "cmc-stablecoinmarketcap-usd"⟩,
                by simp [parseCMCDataBlock, hd, htv]⟩
            · exact ⟨none, by simp [parseCMCDataBlock, hd, htv]⟩
      obtain ⟨cb, hb⟩ := hb
      constructor
      · intro h1
        have hti : List.lookup "traceId" d = none := (lookup_eq_none_iff d _).mpr h1
        simp [parse_multi_kpi_response, h, hb, jindex, hti]
      · intro h1 h2
        obtain ⟨tv, hti⟩ := Option.isSome_iff_exists.mp
          (by rw [← containsKey_eq_isSome_lookup]; exact h1)
        have hts2 : List.lookup "timestamp" d = none := (lookup_eq_none_iff d _).mpr h2
        simp [parse_multi_kpi_response, h, hb, jindex, hti, hts2]
    · cases hb : parseCMCDataBlock d with
      | error e =>
          have := parseCMCDataBlock_error d e hb
          subst this
          simp [parse_multi_kpi_response, h, hb] at hcontra
      | ok cb =>
          cases hti : List.lookup "traceId" d with
          | none => simp [parse_multi_kpi_response, h, hb, jindex, hti] at hcontra
          | some tv =>
              cases hts2 : List.lookup "timestamp" d with
              | none =>
                  simp [parse_multi_kpi_response, h, hb, jindex, hti, hts2] at hcontra
              | some sv =>
                  simp [parse_multi_kpi_response, h, hb, jindex, hti, hts2] at hcontra

/-- C9 witness: a cmc-multi mapping lacking `traceId` fails with the raw
`KeyError` for `traceId`, and one lacking only `timestamp` fails with the
raw `KeyError` for `timestamp`. -/
theorem C9_raw_key_witness :
    parse_multi_kpi_response [("kpiType", Json.str "cmc-multi"),
      ("timestamp", Json.str "s")] = Except.error (PyErr.keyError "traceId") ∧
    parse_multi_kpi_response [("kpiType", Json.str "cmc-multi"),
      ("traceId", Json.str "t")] = Except.error (PyErr.keyError "timestamp") :=
  ⟨((C9_raw_key_lookup [("kpiType", Json.str "cmc-multi"),
      ("timestamp", Json.str "s")] (Or.inr (by decide))).2.1
      (fun v hv _ => by simp at hv)).1 (by decide),
   ((C9_raw_key_lookup [("kpiType", Json.str "cmc-multi"),
      ("traceId", Json.str "t")] (Or.inr (by decide))).2.1
      (fun v hv _ => by simp at hv)).2 (by decide) (by decide)⟩

theorem filterMap_normalizeOne (tid ts kt K md : Json) (dd : JDict) (l : List String) :
    (l.map Json.str).filterMap (normalizeOne tid ts kt K md dd) =
      l.filterMap (fun s => (List.lookup s dd).bind (fun v =>
        if v = Json.null then none
        else some (KPIDataUpdate.mk tid (Json.str s) ts kt
          (Json.obj [("value", v)]) K none md))) := by
  induction l with
  | nil => rfl
  | cons s rest ih =>
      simp only [List.map_cons, List.filterMap_cons]
      cases hl : List.lookup s dd with
      | none => simp [normalizeOne, hl, ih]
      | some v =>
          by_cases hv : v = Json.null
          · simp [normalizeOne, hl, hv, ih]
          · simp [normalizeOne, hl, hv, ih]

/-- C1: the multi-KPI normalizer.  When `data` or `kpi_ids` is absent the
fan-out is empty; otherwise the ids are walked in declared order, every id
with no value in the serialized aggregate mapping is skipped without error,
and every id with value `v` yields a `KPIDataUpdate` with
`data = {value: v}`, that `kpi_id`, and the response's `trace_id`,
`timestamp`, `kpi_type`, full `kpi_ids` list and `metadata` carried
through unchanged. -/
theorem C1_normalizer_fanout (tid ts kt md kids : Json) (ids : List String) :
    (∀ od : Option CBBIData, od = none ∨ kids = Json.null →
       (CBBIMultiKPIResponse.mk tid ts kt kids od md).to_kpi_data_updates = []) ∧
    (∀ od : Option CMCData, od = none ∨ kids = Json.null →
       (CMCMultiKPIResponse.mk tid ts kt kids od md).to_kpi_data_updates = []) ∧
    (∀ d : CBBIData,
       (CBBIMultiKPIResponse.mk tid ts kt (Json.arr (ids.map Json.str)) (some d)
         md).to_kpi_data_updates =
       ids.filterMap (fun s => (List.lookup s d.to_dict).bind (fun v =>
         if v = Json.null then none
         else some (KPIDataUpdate.mk tid (Json.str s) ts kt
           (Json.obj [("value", v)]) (Json.arr (ids.map Json.str)) none md)))) ∧
    (∀ d : CMCData,
       (CMCMultiKPIResponse.mk tid ts kt (Json.arr (ids.map Json.str)) (some d)
         md).to_kpi_data_updates =
       ids.filterMap (fun s => (List.lookup s d.to_dict).bind (fun v =>
         if v = Json.null then none
         else some (KPIDataUpdate.mk tid (Json.str s) ts kt
           (Json.obj [("value", v)]) (Json.arr (ids.map Json.str)) none md)))) := by
  refine ⟨fun od h => ?_, fun od h => ?_, fun d => ?_, fun d => ?_⟩
  · rcases h with h | h
    · simp [CBBIMultiKPIResponse.to_kpi_data_updates, h]
    · cases od <;> simp [CBBIMultiKPIResponse.to_kpi_data_updates, h]
  · rcases h with h | h
    · simp [CMCMultiKPIResponse.to_kpi_data_updates, h]
    · cases od <;> simp [CMCMultiKPIResponse.to_kpi_data_updates, h]
  · simp only [CBBIMultiKPIResponse.to_kpi_data_updates]
    exact filterMap_normalizeOne tid ts kt (Json.arr (ids.map Json.str)) md d.to_dict ids
  · simp only [CMCMultiKPIResponse.to_kpi_data_updates]
    exact filterMap_normalizeOne tid ts kt (Json.arr (ids.map Json.str)) md d.to_dict ids

/-- C1 witness: the empty case (`data = None`) and the two-id CBBI fan-out
of the spec, with the full id list repeated on both emitted records. -/
theorem C1_normalizer_witness :
    (CBBIMultiKPIResponse.mk (Json.str "t") (Json.str "s") (Json.str "cbbi-multi")
      (Json.arr [Json.str "cbbi-rhodl"]) none Json.null).to_kpi_data_updates = [] ∧
    (CBBIMultiKPIResponse.mk (Json.str "t") (Json.str "s") (Json.str "cbbi-multi")
      (Json.arr [Json.str "cbbi-rhodl", Json.str "cbbi-mvrv"])
      (some ⟨Json.num 1, Json.num 2, Json.num 3, Json.num 4⟩)
      Json.null).to_kpi_data_updates =
    [KPIDataUpdate.mk (Json.str "t") (Json.str "cbbi-rhodl") (Json.str "s")
       (Json.str "cbbi-multi") (Json.obj [("value", Json.num 2)])
       (Json.arr [Json.str "cbbi-rhodl", Json.str "cbbi-mvrv"]) none Json.null,
     KPIDataUpdate.mk (Json.str "t") (Json.str "cbbi-mvrv") (Json.str "s")
       (Json.str "cbbi-multi") (Json.obj [("value", Json.num 3)])
       (Json.arr [Json.str "cbbi-rhodl", Json.str "cbbi-mvrv"]) none Json.null] :=
  by
  constructor
  · exact (C1_normalizer_fanout (Json.str "t") (Json.str "s")
      (Json.str "cbbi-multi") Json.null (Json.arr [Json.str "cbbi-rhodl"])
      []).1 none (Or.inl rfl)
  · have h := (C1_normalizer_fanout (Json.str "t") (Json.str "s")
      (Json.str "cbbi-multi") Json.null Json.null
      ["cbbi-rhodl", "cbbi-mvrv"]).2.2.1
      (CBBIData.mk (Json.num 1) (Json.num 2) (Json.num 3) (Json.num 4))
    simpa using h
